import Mathlib

/-!
Verification of the `indigo-ai-scrappers` web-scraper pipeline against its
natural-language specification.  The Python modules under `src/scraper/` are
shallowly embedded below: pure computations become Lean functions; HTTP
transport, HTML parsing and other external collaborators become explicit
oracle parameters; Python exceptions become explicit outcome constructors.
Strings model Python `str`, `Option` models absent dictionary keys / `None`.
-/

namespace Scraper

/-! ## Website information record

Embeds the `website_info` dictionary fields consulted by strategy selection
(`can_handle` of the three strategies plus the optional Playwright one). -/

structure WebsiteInfo where
  has_search_form : Bool
  sitemap_urls : List String
  requires_js : Bool
deriving DecidableEq

/-! ## Search-strategy factory (src/scraper/strategies/search_strategies.py)

`StrategyKind` enumerates the concrete strategy classes the factory can hold.
`playwrightAvailable` models the module-level `PLAYWRIGHT_AVAILABLE` flag. -/

inductive StrategyKind where
  | form
  | sitemap
  | queryparam
  | playwright
deriving DecidableEq

/-- The `can_handle` predicate of each strategy class.  Form: `website_info.get('has_search_form', False)`;
Sitemap: `bool(website_info.get('sitemap_urls'))`; QueryParam: always `True`;
Playwright: `PLAYWRIGHT_AVAILABLE and website_info.get('requires_js', False)`. -/
def canHandle (pa : Bool) (s : StrategyKind) (w : WebsiteInfo) : Bool :=
  match s with
  | .form => w.has_search_form
  | .sitemap => !w.sitemap_urls.isEmpty
  | .queryparam => true
  | .playwright => pa && w.requires_js

/-- The ordered strategy list built by `SearchStrategyFactory.__init__`:
Form, Sitemap, QueryParam, then Playwright when available. -/
def factoryStrategies (pa : Bool) : List StrategyKind :=
  [.form, .sitemap, .queryparam] ++ (if pa then [.playwright] else [])

/-- Models `SearchStrategyFactory.get_best_strategy`: first strategy in the fixed
list whose `can_handle` returns true, else `None`. -/
def getBestStrategy (pa : Bool) (w : WebsiteInfo) : Option StrategyKind :=
  (factoryStrategies pa).find? (fun s => canHandle pa s w)

/-- The `name` attribute set in `SearchStrategy.__init__` as
`self.__class__.__name__.replace('SearchStrategy', '').lower()`.
`PlaywrightSearchStrategy` does not subclass `SearchStrategy` and never sets
a `name` attribute, so reading it raises `AttributeError`: modelled as `none`. -/
def strategyName (s : StrategyKind) : Option String :=
  match s with
  | .form => some "form"
  | .sitemap => some "sitemap"
  | .queryparam => some "queryparam"
  | .playwright => none

/-- The strategy name recorded by `ScraperEngine.discover_website_structure`:
`strategy.name if strategy else 'unknown'`, where an `AttributeError` while
reading `.name` is caught by the surrounding handler and leaves the initial
`'search_strategy': None` in place (modelled as `none`). -/
def recordedStrategyName (pa : Bool) (w : WebsiteInfo) : Option String :=
  match getBestStrategy pa w with
  | none => some "unknown"
  | some s => strategyName s

/-- Models `SearchStrategyFactory.get_strategy`: dictionary lookup keyed by
`'form'`, `'sitemap'`, `'query_param'`, plus `'playwright'` when available.
The argument is `website_info.get('search_strategy', 'unknown')`, which can
be `None` (key present with value `None`), hence `Option String`. -/
def getStrategy (pa : Bool) (name : Option String) : Option StrategyKind :=
  match name with
  | some "form" => some .form
  | some "sitemap" => some .sitemap
  | some "query_param" => some .queryparam
  | some "playwright" => if pa then some .playwright else none
  | _ => none

/-- Composition performed by the pipeline: `discover_website_structure`
records the selected strategy's name, and `scrape_data` looks that name up
via `get_strategy`; `none` means `scrape_data` takes its
`"No suitable search strategy found"` error branch. -/
def pipelineStrategy (pa : Bool) (w : WebsiteInfo) : Option StrategyKind :=
  getStrategy pa (recordedStrategyName pa w)

/-! ## Quality score (src/scraper/extractors/data_extractor.py)

`QualityFields` models exactly the dictionary keys consulted by
`DataExtractor._calculate_quality_score`; an absent key is modelled by the
corresponding `.get` default (`''`, `0`, `[]`, `none`). -/

structure QualityFields where
  url : String := ""
  title : String := ""
  page_title : String := ""
  description : String := ""
  page_description : String := ""
  page_content_length : Nat := 0
  page_images : List String := []
  page_links : List String := []
  error : Option String := none
  metadata_error : Option String := none
  fetch_error : Option String := none
deriving DecidableEq

/-- Python truthiness of an optional string value: the key is present and the
string is non-empty. -/
def truthyOpt (o : Option String) : Bool :=
  match o with
  | some s => !s.isEmpty
  | none => false

/-- The content-length tier of `_calculate_quality_score`:
`+15/+10/+5` for length `>1000/>500/>100`, else `0`. -/
def contentLengthPoints (n : Nat) : Nat :=
  if n > 1000 then 15 else if n > 500 then 10 else if n > 100 then 5 else 0

/-- Models `DataExtractor._calculate_quality_score` (score is integral throughout,
so the Python float is modelled as `Nat`). -/
def calculateQualityScore (r : QualityFields) : Nat :=
  min ((if !r.url.isEmpty then 20 else 0)
    + (if !r.title.isEmpty || !r.page_title.isEmpty then 20 else 0)
    + (if !r.description.isEmpty || !r.page_description.isEmpty then 15 else 0)
    + contentLengthPoints r.page_content_length
    + (if !r.page_images.isEmpty then 10 else 0)
    + (if !r.page_links.isEmpty then 10 else 0)
    + (if !(truthyOpt r.error) && !(truthyOpt r.metadata_error) && !(truthyOpt r.fetch_error)
        then 10 else 0)) 100

/-- The additive checklist exactly as the specification words it: 20 for a
URL, 20 for a title, 15 for a description, the 15/10/5 content-length tiers,
10 for images, 10 for links, 10 for the absence of all three error fields
(uncapped; the specification applies the cap separately). -/
def specQualityChecklist (r : QualityFields) : Nat :=
  (if !r.url.isEmpty then 20 else 0)
    + (if !r.title.isEmpty || !r.page_title.isEmpty then 20 else 0)
    + (if !r.description.isEmpty || !r.page_description.isEmpty then 15 else 0)
    + contentLengthPoints r.page_content_length
    + (if !r.page_images.isEmpty then 10 else 0)
    + (if !r.page_links.isEmpty then 10 else 0)
    + (if !(truthyOpt r.error) && !(truthyOpt r.metadata_error) && !(truthyOpt r.fetch_error)
        then 10 else 0)

/-- The concrete scenario from the specification: url, title, description,
content length 1200, 2 images, 3 links, no errors. -/
def scenarioResult : QualityFields :=
  { url := "https://example.com/item"
    title := "A Title"
    description := "A description"
    page_content_length := 1200
    page_images := ["https://example.com/1.png", "https://example.com/2.png"]
    page_links := ["https://example.com/a", "https://example.com/b", "https://example.com/c"] }

/-! ## Text cleaning (DataExtractor._clean_text)

`re.sub(r'\s+', ' ', text)`, the five HTML-entity replacements, then
`.strip()`.  Python string replacement is embedded as a left-to-right scan
over the character list. -/

/-- The ASCII whitespace class matched by `\s` and stripped by `.strip()`. -/
def pyIsSpace (c : Char) : Bool :=
  c = ' ' || c = Char.ofNat 9 || c = Char.ofNat 10 || c = Char.ofNat 13
    || c = Char.ofNat 11 || c = Char.ofNat 12

/-- Collapse every maximal whitespace run to a single space (`re.sub(r'\s+', ' ')`).
The flag records whether the previous character belonged to a run. -/
def collapseWsAux (prev : Bool) : List Char → List Char
  | [] => []
  | c :: cs =>
    if pyIsSpace c then
      if prev then collapseWsAux true cs else ' ' :: collapseWsAux true cs
    else c :: collapseWsAux false cs

/-- Left-to-right non-overlapping replacement of `pat` by `rep`
(`str.replace`).  The fuel argument equals the input length; each step
consumes at least one character, so the fuel never runs out on real calls. -/
def replaceFuel (pat rep : List Char) : Nat → List Char → List Char
  | 0, l => l
  | _ + 1, [] => []
  | n + 1, c :: cs =>
    if pat.isPrefixOf (c :: cs) && !pat.isEmpty then
      rep ++ replaceFuel pat rep n (cs.drop (pat.length - 1))
    else c :: replaceFuel pat rep n cs

/-- Python `str.replace(pat, rep)`. -/
def pyReplace (s pat rep : String) : String :=
  String.mk (replaceFuel pat.data rep.data s.data.length s.data)

/-- Python `str.strip()`. -/
def pyStrip (s : String) : String :=
  String.mk (((s.data.dropWhile pyIsSpace).reverse.dropWhile pyIsSpace).reverse)

/-- The apostrophe character, target of the `&#39;` entity replacement. -/
def aposChar : Char := Char.ofNat 39

/-- Models `DataExtractor._clean_text` on a string input (the `isinstance` branch
for non-strings never arises for the string fields modelled here). -/
def cleanText (s : String) : String :=
  pyStrip (pyReplace (pyReplace (pyReplace (pyReplace (pyReplace
    (String.mk (collapseWsAux false s.data))
    "&amp;" "&") "&lt;" "<") "&gt;" ">") "&quot;" "\"")
    ("&#39".push ';') (String.mk [aposChar]))

/-! ## Raw and enriched results (src/scraper/extractors/data_extractor.py) -/

/-- A raw result produced by a search strategy: exactly the keys
`url`, `title`, `description`, `query`, `source_url`. -/
structure RawResult where
  url : String
  title : String
  description : String
  query : String
  source_url : String
deriving DecidableEq

/-- A caller-supplied search term: `id` models `term.get('id')`
(`none` when the key is absent); the remaining key-value pairs are opaque. -/
structure SearchTerm where
  id : Option Int := none
  fields : List (String × String) := []
deriving DecidableEq

/-- The metadata dictionary initialised at the top of
`DataExtractor._fetch_page_metadata`; a successful parse fills these fields
from the fetched page. -/
structure PageMetadata where
  page_title : String := ""
  page_description : String := ""
  page_keywords : String := ""
  page_content_length : Nat := 0
  page_images : List String := []
  page_links : List String := []
  page_language : String := ""
  page_author : String := ""
  page_published_date : String := ""
  page_modified_date : String := ""
deriving DecidableEq

/-- Outcome of the HTTP fetch + parse inside `_fetch_page_metadata`:
a parsed page, a `requests.RequestException` (timeouts, DNS, TLS, HTTP
errors — everything the transport layer raises), or any other exception. -/
inductive FetchOutcome where
  | ok (m : PageMetadata)
  | transportErr (msg : String)
  | otherErr (msg : String)
deriving DecidableEq

/-- Models `DataExtractor._fetch_page_metadata`: a `requests.RequestException` is
caught locally and recorded in the returned dictionary as `fetch_error`
(second component); any other exception propagates to the caller. -/
def fetchPageMetadata (out : FetchOutcome) : Except String (PageMetadata × Option String) :=
  match out with
  | .ok m => .ok (m, none)
  | .transportErr e => .ok ({}, some e)
  | .otherErr e => .error e

/-- The enriched-result dictionary built by `_enrich_result` on its success
path.  Metadata keys absent from the dictionary (URL empty, or metadata
fetch raised outside the transport-exception class) are modelled by their
`.get` defaults, which is how every consumer reads them. -/
structure EnrichedResult where
  url : String
  title : String
  description : String
  query : String
  source_url : String
  search_term_id : Option Int
  search_term_data : SearchTerm
  extraction_timestamp : Nat
  page_title : String := ""
  page_description : String := ""
  page_keywords : String := ""
  page_content_length : Nat := 0
  page_images : List String := []
  page_links : List String := []
  page_language : String := ""
  page_author : String := ""
  page_published_date : String := ""
  page_modified_date : String := ""
  fetch_error : Option String := none
  metadata_error : Option String := none
  data_quality_score : Nat := 0
deriving DecidableEq

/-- Projection of an enriched result onto the keys consulted by
`_calculate_quality_score` (`error` is never set on this path). -/
def qualityFieldsOf (e : EnrichedResult) : QualityFields :=
  { url := e.url
    title := e.title
    page_title := e.page_title
    description := e.description
    page_description := e.page_description
    page_content_length := e.page_content_length
    page_images := e.page_images
    page_links := e.page_links
    error := none
    metadata_error := e.metadata_error
    fetch_error := e.fetch_error }

/-- Models `DataExtractor._validate_url`: keep the URL only when the external
`urlparse` collaborator (parameter `urlOk`) reports both a scheme and a
host; empty or unparsable URLs are blanked. -/
def validateUrl (urlOk : String → Bool) (u : String) : String :=
  if u.isEmpty then "" else if urlOk u then u else ""

/-- Models `DataExtractor._clean_result_data`: clean the four text fields,
validate the URL, then attach the quality score computed on the cleaned
dictionary. -/
def cleanResultData (urlOk : String → Bool) (e : EnrichedResult) : EnrichedResult :=
  let e1 := { e with
    title := cleanText e.title
    description := cleanText e.description
    page_title := cleanText e.page_title
    page_description := cleanText e.page_description
    url := validateUrl urlOk e.url }
  { e1 with data_quality_score := calculateQualityScore (qualityFieldsOf e1) }

/-- Models `DataExtractor._enrich_result`: copy the raw result, attach the search
term's id, data and a timestamp; when a URL is present, fetch metadata —
merging the returned dictionary on success (including a possible
`fetch_error`) and recording `metadata_error` when the fetch raised outside
the transport-exception class; finally clean and score. -/
def enrichResult (r : RawResult) (term : SearchTerm) (out : FetchOutcome)
    (urlOk : String → Bool) (now : Nat) : EnrichedResult :=
  let base : EnrichedResult :=
    { url := r.url, title := r.title, description := r.description
      query := r.query, source_url := r.source_url
      search_term_id := term.id, search_term_data := term
      extraction_timestamp := now }
  let withMeta :=
    if r.url.isEmpty then base
    else
      match fetchPageMetadata out with
      | .ok (m, fe) =>
        { base with
          page_title := m.page_title, page_description := m.page_description
          page_keywords := m.page_keywords
          page_content_length := m.page_content_length
          page_images := m.page_images, page_links := m.page_links
          page_language := m.page_language, page_author := m.page_author
          page_published_date := m.page_published_date
          page_modified_date := m.page_modified_date
          fetch_error := fe }
      | .error e => { base with metadata_error := some e }
  cleanResultData urlOk withMeta

/-- Per-result outcome inside `DataExtractor.extract_data`: either
`_enrich_result` returns (with a fetch outcome), or it raises and the
per-result handler fires. -/
inductive EnrichOutcome where
  | ok (f : FetchOutcome)
  | raised (msg : String)
deriving DecidableEq

/-- One entry of the list returned by `extract_data`: the enriched
dictionary, or — on the per-result error-degradation path — a copy of the
original raw result plus an `error` key. -/
inductive ExtractedEntry where
  | enriched (e : EnrichedResult)
  | degraded (r : RawResult) (msg : String)
deriving DecidableEq

/-- The `search_term_id` key of an entry: present with the term id on the
enriched shape, absent (`none`) on the degraded shape, whose dictionary is a
copy of the raw result and raw results never carry that key. -/
def searchTermIdOf (entry : ExtractedEntry) : Option (Option Int) :=
  match entry with
  | .enriched e => some e.search_term_id
  | .degraded _ _ => none

/-- Loop body of `DataExtractor.extract_data`, indexed from `i`; `outs`
gives each result position its enrichment outcome. -/
def extractDataAux (term : SearchTerm) (outs : Nat → EnrichOutcome)
    (urlOk : String → Bool) (now : Nat) (i : Nat) :
    List RawResult → List ExtractedEntry
  | [] => []
  | r :: rest =>
    (match outs i with
      | .raised msg => ExtractedEntry.degraded r msg
      | .ok f => ExtractedEntry.enriched (enrichResult r term f urlOk now))
      :: extractDataAux term outs urlOk now (i + 1) rest

/-- Models `DataExtractor.extract_data`: one output entry per raw result, in
order; a result whose enrichment raises degrades to the raw copy plus
`error` instead of aborting the batch. -/
def extractData (rs : List RawResult) (term : SearchTerm)
    (outs : Nat → EnrichOutcome) (urlOk : String → Bool) (now : Nat) :
    List ExtractedEntry :=
  extractDataAux term outs urlOk now 0 rs

/-! ## Scrape loop (ScraperEngine.scrape_data, per-term section) -/

/-- Per-term outcome of `strategy.search` (plus query construction): a raw
result list, or an exception caught by the per-term handler. -/
inductive SearchOutcome where
  | ok (rs : List RawResult)
  | exn (msg : String)
deriving DecidableEq

/-- One entry of `results['results']`: an extracted entry appended via
`extend`, or the per-term error record
`{'search_term_id': …, 'search_term': …, 'error': …, 'results_count': 0}`. -/
inductive ResultEntry where
  | extracted (e : ExtractedEntry)
  | termError (id : Option Int) (term : SearchTerm) (msg : String)
deriving DecidableEq

/-- Per-term loop of `ScraperEngine.scrape_data` once a strategy was found:
on success the extracted entries are appended with `extend`; on a per-term
exception a single error record is appended and processing continues. -/
def scrapeResultsAux (searchOut : Nat → SearchOutcome)
    (enrichOut : Nat → Nat → EnrichOutcome) (urlOk : String → Bool)
    (now : Nat) (i : Nat) : List SearchTerm → List ResultEntry
  | [] => []
  | t :: ts =>
    (match searchOut i with
      | .exn msg => [ResultEntry.termError t.id t msg]
      | .ok rs => (extractData rs t (enrichOut i) urlOk now).map ResultEntry.extracted)
      ++ scrapeResultsAux searchOut enrichOut urlOk now (i + 1) ts

/-- The `results['results']` list produced by `ScraperEngine.scrape_data`
for a term list, given per-term search outcomes and per-result enrichment
outcomes. -/
def scrapeDataResults (terms : List SearchTerm) (searchOut : Nat → SearchOutcome)
    (enrichOut : Nat → Nat → EnrichOutcome) (urlOk : String → Bool) (now : Nat) :
    List ResultEntry :=
  scrapeResultsAux searchOut enrichOut urlOk now 0 terms

/-- The entry count the amended batch claim predicts: one entry per raw
result of a successful term, one error record for a failed term. -/
def expectedResultCount (searchOut : Nat → SearchOutcome) :
    Nat → List SearchTerm → Nat
  | _, [] => 0
  | i, _ :: ts =>
    (match searchOut i with | .exn _ => 1 | .ok rs => rs.length)
      + expectedResultCount searchOut (i + 1) ts

/-! ## Result-extraction heuristics
(src/scraper/strategies/search_strategies.py)

The per-element HTML resolution (`_extract_result_data`) is an external
parse; each candidate element's outcome is modelled as `Option RawResult`
(`none`: no URL found, or the per-element handler caught an exception).
The page-level list processing — validity filtering and deduplication —
is embedded exactly. -/

/-- Scan for `pat` occurring contiguously inside a character list
(Python `pat in s`). -/
def listContainsSub (pat : List Char) : List Char → Bool
  | [] => pat.isEmpty
  | c :: cs => pat.isPrefixOf (c :: cs) || listContainsSub pat cs

/-- Python `pat in s` on strings. -/
def strContainsSub (s pat : String) : Bool :=
  listContainsSub pat.data s.data

/-- Python `str.lower()` (ASCII case folding, which covers every pattern
and attribute the probes compare). -/
def strToLower (s : String) : String :=
  String.mk (s.data.map Char.toLower)

/-- The `skip_patterns` blocklist of `FormSearchStrategy._is_valid_result`. -/
def validResultSkipPatterns : List String :=
  ["#", "javascript:", "mailto:", "tel:", "data:",
   "facebook.com", "twitter.com", "instagram.com", "youtube.com",
   "login", "register", "signup", "signin"]

/-- Models `FormSearchStrategy._is_valid_result`: require a URL outside the
blocklist, some title or description, and no non-empty title stripping to
fewer than 3 characters. -/
def isValidResult (r : RawResult) : Bool :=
  if r.url.isEmpty then false
  else if validResultSkipPatterns.any (fun p => strContainsSub (strToLower r.url) p) then false
  else if r.title.isEmpty && r.description.isEmpty then false
  else if !r.title.isEmpty && (pyStrip r.title).data.length < 3 then false
  else true

/-- The `seen_urls` fold at the end of
`FormSearchStrategy._extract_results_from_page`: drop a result whose URL
was already seen, otherwise keep it and remember the URL. -/
def dedupByUrlAux (seen : List String) : List RawResult → List RawResult
  | [] => []
  | r :: rs =>
    if r.url ∈ seen then dedupByUrlAux seen rs
    else r :: dedupByUrlAux (r.url :: seen) rs

/-- Page-level result list of `FormSearchStrategy._extract_results_from_page`:
keep the candidates passing `_is_valid_result`, then deduplicate by URL
keeping the first occurrence. -/
def formExtractResultsFromPage (cands : List (Option RawResult)) : List RawResult :=
  dedupByUrlAux []
    (cands.filterMap (fun o => match o with
      | some r => if isValidResult r then some r else none
      | none => none))

/-- Page-level result list of
`QueryParamSearchStrategy._extract_results_from_page`: append every
non-`None` candidate outcome, with no validity filter and no
deduplication. -/
def queryParamExtractResultsFromPage (cands : List (Option RawResult)) : List RawResult :=
  cands.filterMap (fun o => o)

/-! ## Website analyzer (src/scraper/discovery/website_analyzer.py)

`ujoin` stands for the stdlib `urljoin` collaborator, `headStatus` for the
HEAD transport (`none`: `requests.RequestException`), and `RobotsFetch` for
the GET of `/robots.txt`. -/

/-- The fixed well-known path list of `WebsiteAnalyzer._analyze_sitemaps`. -/
def sitemapPaths : List String :=
  ["/sitemap.xml", "/sitemap_index.xml", "/sitemaps.xml", "/robots.txt"]

/-- Models `WebsiteAnalyzer._analyze_sitemaps`: probe each well-known path with
HEAD; record the URL on a 200 response; skip transport failures. -/
def analyzeSitemaps (ujoin : String → String → String) (base : String)
    (headStatus : String → Option Nat) : List String :=
  sitemapPaths.filterMap (fun p =>
    let u := ujoin base p
    if headStatus u = some 200 then some u else none)

/-- Status and body of the `/robots.txt` GET. -/
structure RobotsFetch where
  status : Nat
  text : String
deriving DecidableEq

/-- Python `text.split('\n')`: split into lines at newline characters, keeping
empty pieces, as Python `str.split` with an explicit separator does. -/
def pySplitNewlineAux (acc : List Char) : List Char → List (List Char)
  | [] => [acc.reverse]
  | c :: cs =>
    if c = Char.ofNat 10 then acc.reverse :: pySplitNewlineAux [] cs
    else pySplitNewlineAux (c :: acc) cs

/-- Python `text.split('\n')` on strings. -/
def pySplitNewline (s : String) : List String :=
  (pySplitNewlineAux [] s.data).map String.mk

/-- The characters after the first colon (empty when no colon occurs,
a case the call site excludes). -/
def afterFirstColonAux : List Char → List Char
  | [] => []
  | c :: cs => if c = ':' then cs else afterFirstColonAux cs

/-- The `robots.txt` lines recognised as sitemap references:
`line.strip().lower().startswith('sitemap:')`. -/
def robotsSitemapLines (text : String) : List String :=
  (pySplitNewline text).filter
    (fun l => "sitemap:".data.isPrefixOf (strToLower (pyStrip l)).data)

/-- Python `line.split(':', 1)[1]`: everything after the first colon. -/
def afterFirstColon (s : String) : String :=
  String.mk (afterFirstColonAux s.data)

/-- The sitemap URLs extracted from a robots.txt body. -/
def robotsSitemapUrls (text : String) : List String :=
  (robotsSitemapLines text).map (fun l => pyStrip (afterFirstColon l))

/-- The `sitemap_urls` key of the dictionary returned by
`WebsiteAnalyzer._analyze_robots_txt`.  The key is created by
`robots_info.setdefault('sitemap_urls', []).append(…)` on a fresh
dictionary, so it exists (`some`) exactly when the fetch returned 200 and
at least one sitemap line was found — and then holds only the
robots-derived URLs. -/
def robotsInfoSitemapUrls (robots : Option RobotsFetch) : Option (List String) :=
  match robots with
  | none => none
  | some rf =>
    if rf.status = 200 then
      let urls := robotsSitemapUrls rf.text
      if urls.isEmpty then none else some urls
    else none

/-- The final `sitemap_urls` value after `WebsiteAnalyzer.analyze_website`:
the probe list from `_analyze_sitemaps` is installed by `analysis.update`,
then `analysis.update(self._analyze_robots_txt(url))` overwrites the key
whenever the robots dictionary carries it.  When the homepage fetch fails,
no sub-probe runs and the initial `[]` survives. -/
def analyzeWebsiteSitemapUrls (ujoin : String → String → String) (base : String)
    (headStatus : String → Option Nat) (robots : Option RobotsFetch)
    (homepageOk : Bool) : List String :=
  if homepageOk then
    match robotsInfoSitemapUrls robots with
    | some urls => urls
    | none => analyzeSitemaps ujoin base headStatus
  else []

/-! ## Search-form detection (WebsiteAnalyzer._analyze_search_forms)

Forms and inputs are modelled by the attributes the probe consults; a
missing HTML attribute is `none`.  The regex alternations of literal words
used with `re.search` reduce to case-insensitive substring tests. -/

/-- An `<input>` element, restricted to the attributes the probe reads. -/
structure SInput where
  typeAttr : Option String := none
  nameAttr : Option String := none
  placeholderAttr : Option String := none
  idAttr : Option String := none
deriving DecidableEq

/-- A `<form>` element with its input elements. -/
structure SForm where
  actionAttr : Option String := none
  methodAttr : Option String := none
  idAttr : Option String := none
  classAttr : Option String := none
  inputs : List SInput := []
deriving DecidableEq

/-- Embeds `re.search` of an alternation of lowercase literal words, case
insensitively: some word occurs in the lowercased subject. -/
def matchesAny (pats : List String) (s : String) : Bool :=
  pats.any (fun p => strContainsSub (strToLower s) p)

/-- The regex `search|query|find` (case-insensitive). -/
def reSearchQueryFind (s : String) : Bool :=
  matchesAny ["search", "query", "find"] s

/-- The regex `search|query|q|find|term|keyword` (case-insensitive), used
both for input `name` attributes in the source and verbatim in the
specification's search-input rule. -/
def reInputName (s : String) : Bool :=
  matchesAny ["search", "query", "q", "find", "term", "keyword"] s

/-- The regex `search|query|find|enter` (case-insensitive) applied to
`placeholder` attributes. -/
def reInputPlaceholder (s : String) : Bool :=
  matchesAny ["search", "query", "find", "enter"] s

/-- A matcher applied to an attribute that may be absent: `find_all` never
matches a regex against a missing attribute. -/
def optAttrMatch (o : Option String) (m : String → Bool) : Bool :=
  match o with
  | some v => m v
  | none => false

/-- Pattern `{'action': re.compile(r'search|query|find', re.I)}`. -/
def formPatternAction (f : SForm) : Bool :=
  optAttrMatch f.actionAttr reSearchQueryFind

/-- Pattern `{'method': 'get'}`: exact attribute-value match. -/
def formPatternMethodGet (f : SForm) : Bool :=
  f.methodAttr = some "get"

/-- Pattern `{'id': re.compile(r'search|query|find', re.I)}`. -/
def formPatternId (f : SForm) : Bool :=
  optAttrMatch f.idAttr reSearchQueryFind

/-- Pattern `{'class': re.compile(r'search|query|find', re.I)}`.  A space-
free word is a contiguous substring of the whole class attribute exactly
when it is a substring of one of its space-separated tokens, so matching
the whole attribute value is equivalent to bs4's per-class matching. -/
def formPatternClass (f : SForm) : Bool :=
  optAttrMatch f.classAttr reSearchQueryFind

/-- The probe `find_all('input', {'type': ['text', 'search'], 'name': regex})`. -/
def inputPatternName (i : SInput) : Bool :=
  (i.typeAttr = some "text" || i.typeAttr = some "search")
    && optAttrMatch i.nameAttr reInputName

/-- The probe `find_all('input', {'placeholder': re.compile(r'search|query|find|enter', re.I)})`. -/
def inputPatternPlaceholder (i : SInput) : Bool :=
  optAttrMatch i.placeholderAttr reInputPlaceholder

/-- The probe `find_all('input', {'id': re.compile(r'search|query|find', re.I)})`. -/
def inputPatternId (i : SInput) : Bool :=
  optAttrMatch i.idAttr reSearchQueryFind

/-- An input matching any of the three search-input probes. -/
def inputMatchesSearch (i : SInput) : Bool :=
  inputPatternName i || inputPatternPlaceholder i || inputPatternId i

/-- The `search_forms` accumulation over the four form patterns: one
`find_all` pass per pattern, results concatenated (`extend`). -/
def patternMatchedForms (page : List SForm) : List SForm :=
  page.filter formPatternAction ++ page.filter formPatternMethodGet
    ++ page.filter formPatternId ++ page.filter formPatternClass

/-- Parent forms of document-wide matching inputs, one pass per input
pattern, in document order. -/
def inputDerivedForms (page : List SForm) : List SForm :=
  page.filter (fun f => f.inputs.any inputPatternName)
    ++ page.filter (fun f => f.inputs.any inputPatternPlaceholder)
    ++ page.filter (fun f => f.inputs.any inputPatternId)

/-- Models `if form and form not in search_forms: search_forms.append(form)` —
Python `in` compares tags structurally, as `DecidableEq` membership does. -/
def addIfAbsent (acc : List SForm) (f : SForm) : List SForm :=
  if f ∈ acc then acc else acc ++ [f]

/-- The complete `search_forms` list assembled by
`WebsiteAnalyzer._analyze_search_forms`. -/
def searchForms (page : List SForm) : List SForm :=
  (inputDerivedForms page).foldl addIfAbsent (patternMatchedForms page)

/-- The resulting `has_search_form` flag: set inside the per-form loop, so
true exactly when `search_forms` is non-empty. -/
def hasSearchForm (page : List SForm) : Bool :=
  !(searchForms page).isEmpty

/-- Endpoint resolution per recorded form: `urljoin(base_url, action)` when
the action attribute is present and non-empty, else the page URL. -/
def resolveFormEndpoint (ujoin : String → String → String) (base : String)
    (f : SForm) : String :=
  match f.actionAttr with
  | some a => if a.isEmpty then base else ujoin base a
  | none => base

/-- The `search_endpoints` list recorded by `_analyze_search_forms`. -/
def searchEndpoints (ujoin : String → String → String) (base : String)
    (page : List SForm) : List String :=
  (searchForms page).map (resolveFormEndpoint ujoin base)

/-- The qualification condition the source actually implements, per form. -/
def formQualifies (f : SForm) : Bool :=
  formPatternAction f || formPatternMethodGet f || formPatternId f
    || formPatternClass f || f.inputs.any inputMatchesSearch

/-- The qualification condition as the claim words it: action, id, or class
matches `search|query|find`, or some input's name, placeholder, or id
matches `search|query|q|find|term|keyword` (all case-insensitive). -/
def claimFormQualifies (f : SForm) : Bool :=
  optAttrMatch f.actionAttr reSearchQueryFind
    || optAttrMatch f.idAttr reSearchQueryFind
    || optAttrMatch f.classAttr reSearchQueryFind
    || f.inputs.any (fun i =>
      optAttrMatch i.nameAttr reInputName
        || optAttrMatch i.placeholderAttr reInputName
        || optAttrMatch i.idAttr reInputName)

/-! ## Theorems -/

/-- C1: evaluation of the strategy-name round trip at the fallback input.
`get_best_strategy` does select the QueryParam strategy (its `can_handle`
is always true), but the recorded name `'queryparam'` is not a key of the
`get_strategy` map (which uses `'query_param'`), so `scrape_data`'s lookup
yields `None` and it returns the error-only result after all. -/
theorem queryparam_name_roundtrip_fails :
    getBestStrategy false ⟨false, [], false⟩ = some StrategyKind.queryparam
    ∧ recordedStrategyName false ⟨false, [], false⟩ = some "queryparam"
    ∧ getStrategy false (some "queryparam") = none
    ∧ pipelineStrategy false ⟨false, [], false⟩ = none := by
  refine ⟨rfl, rfl, ?_, ?_⟩ <;> decide

/-- C8: the factory scans Form, Sitemap, QueryParam (then Playwright) in
order and returns the first applicable strategy: `has_search_form` (with
non-empty `sitemap_urls`) always selects Form, and `has_search_form=false`
with empty `sitemap_urls` always falls through to QueryParam, for every
remaining field and every Playwright availability. -/
theorem get_best_strategy_priority_order (w : WebsiteInfo) (pa : Bool) :
    (w.has_search_form = true → w.sitemap_urls ≠ [] →
      getBestStrategy pa w = some StrategyKind.form)
    ∧ (w.has_search_form = false → w.sitemap_urls = [] →
      getBestStrategy pa w = some StrategyKind.queryparam) := by
  constructor
  · intro h1 _
    simp [getBestStrategy, factoryStrategies, canHandle, List.find?, h1]
  · intro h1 h2
    simp [getBestStrategy, factoryStrategies, canHandle, List.find?, h1, h2]

/-- Witness for C8 at two concrete `WebsiteInfo` records. -/
theorem get_best_strategy_priority_order_witness :
    getBestStrategy false ⟨true, ["https://e.com/sitemap.xml"], false⟩ = some StrategyKind.form
    ∧ getBestStrategy true ⟨false, [], true⟩ = some StrategyKind.queryparam :=
  ⟨(get_best_strategy_priority_order ⟨true, ["https://e.com/sitemap.xml"], false⟩ false).1
      rfl (by decide),
    (get_best_strategy_priority_order ⟨false, [], true⟩ true).2 rfl rfl⟩

/-- C3: for every result mapping the quality score equals the specified
additive checklist capped at 100, and the specification's scenario (url,
title, description, content length 1200, 2 images, 3 links, no errors)
scores exactly 100. -/
theorem quality_score_additive_capped :
    (∀ r : QualityFields, calculateQualityScore r = min (specQualityChecklist r) 100)
    ∧ calculateQualityScore scenarioResult = 100 :=
  ⟨fun _ => rfl, by decide⟩

/-- C9: the quality score is always at most 100 (and is a `Nat`, hence at
least 0), and is monotone in the page content length: enlarging
`page_content_length` while fixing every other field never lowers the
score. -/
theorem quality_score_bounded_and_monotone :
    (∀ r : QualityFields, calculateQualityScore r ≤ 100)
    ∧ ∀ (r : QualityFields) (n₁ n₂ : Nat), n₁ ≤ n₂ →
      calculateQualityScore { r with page_content_length := n₁ }
        ≤ calculateQualityScore { r with page_content_length := n₂ } := by
  constructor
  · intro r
    exact Nat.min_le_right _ 100
  · intro r n₁ n₂ h
    obtain ⟨u, t, pt, d, pd, pcl, pi, pl, er, me, fe⟩ := r
    have hm : contentLengthPoints n₁ ≤ contentLengthPoints n₂ := by
      unfold contentLengthPoints
      split_ifs <;> omega
    simp only [calculateQualityScore]
    omega

/-- Witness for C9: monotonicity applied at content lengths 200 and 1200. -/
theorem quality_score_bounded_and_monotone_witness :
    (200 : Nat) ≤ 1200
    ∧ calculateQualityScore { scenarioResult with page_content_length := 200 }
      ≤ calculateQualityScore { scenarioResult with page_content_length := 1200 } :=
  ⟨by decide, quality_score_bounded_and_monotone.2 scenarioResult 200 1200 (by decide)⟩

/-- A URL validator accepting everything, for concrete runs. -/
def anyUrlOk : String → Bool := fun _ => true

/-- Each raw result yields exactly one entry of `extract_data`'s output. -/
theorem extractDataAux_length (term : SearchTerm) (outs : Nat → EnrichOutcome)
    (urlOk : String → Bool) (now : Nat) :
    ∀ (rs : List RawResult) (i : Nat),
      (extractDataAux term outs urlOk now i rs).length = rs.length := by
  intro rs
  induction rs with
  | nil => intro i; rfl
  | cons r rest ih =>
    intro i
    simp only [extractDataAux, List.length_cons]
    rw [ih]

/-- The per-term loop contributes `rs.length` entries for a successful term
and one error record for a failed one. -/
theorem scrapeResultsAux_length (searchOut : Nat → SearchOutcome)
    (enrichOut : Nat → Nat → EnrichOutcome) (urlOk : String → Bool) (now : Nat) :
    ∀ (terms : List SearchTerm) (i : Nat),
      (scrapeResultsAux searchOut enrichOut urlOk now i terms).length
        = expectedResultCount searchOut i terms := by
  intro terms
  induction terms with
  | nil => intro i; rfl
  | cons t ts ih =>
    intro i
    simp only [scrapeResultsAux, expectedResultCount, List.length_append]
    rw [ih]
    cases searchOut i with
    | exn msg => rfl
    | ok rs =>
      simp only [List.length_map, extractData, extractDataAux_length]

/-- C2 counterexample: one search term whose strategy search yields two raw
results produces two result entries, so the results array is longer than
the term list. -/
def c2term : SearchTerm := { id := some 1 }

/-- Two distinct raw results for the C2 counterexample run. -/
def c2searchOut : Nat → SearchOutcome := fun _ =>
  .ok [⟨"https://e.com/a", "Result A", "", "q", "https://e.com"⟩,
       ⟨"https://e.com/b", "Result B", "", "q", "https://e.com"⟩]

/-- Enrichment succeeds with an empty page for the C2 counterexample run. -/
def c2enrichOut : Nat → Nat → EnrichOutcome := fun _ _ => .ok (.ok {})

/-- C2 is false as stated: for the concrete one-term batch whose search
returns two raw results, `scrape_data` appends both extracted entries
(`extend`), so the results array has length 2 while the term list has
length 1. -/
theorem scrape_results_length_exceeds_terms :
    (scrapeDataResults [c2term] c2searchOut c2enrichOut anyUrlOk 0).length = 2
    ∧ ([c2term] : List SearchTerm).length = 1
    ∧ (scrapeDataResults [c2term] c2searchOut c2enrichOut anyUrlOk 0).length
      ≠ ([c2term] : List SearchTerm).length := by
  refine ⟨?_, rfl, ?_⟩
  · rw [scrapeDataResults, scrapeResultsAux_length]
    rfl
  · rw [scrapeDataResults, scrapeResultsAux_length]
    decide

/-- C2 amended: the results array length equals the sum, over processed
terms, of the number of raw results the term's search produced (each raw
result yields exactly one entry, success or degraded), with a failed term
contributing exactly one error record; no term's outcome is dropped.  The
stated equality with the number of terms holds only when every term yields
exactly one raw result. -/
theorem scrape_results_length_sum (terms : List SearchTerm)
    (searchOut : Nat → SearchOutcome) (enrichOut : Nat → Nat → EnrichOutcome)
    (urlOk : String → Bool) (now : Nat) :
    (scrapeDataResults terms searchOut enrichOut urlOk now).length
      = expectedResultCount searchOut 0 terms :=
  scrapeResultsAux_length searchOut enrichOut urlOk now terms 0

/-- The `_enrich_result` step attaches the search term's id on every success path,
whatever the metadata fetch did. -/
theorem enrichResult_search_term_id (r : RawResult) (term : SearchTerm)
    (f : FetchOutcome) (urlOk : String → Bool) (now : Nat) :
    (enrichResult r term f urlOk now).search_term_id = term.id := by
  unfold enrichResult cleanResultData
  dsimp only
  split
  · rfl
  · split <;> rfl

/-- Every entry of `extract_data`'s output arises from some input raw
result: enriched via `_enrich_result`, or degraded to the raw copy plus an
error message. -/
theorem extractDataAux_mem (term : SearchTerm) (outs : Nat → EnrichOutcome)
    (urlOk : String → Bool) (now : Nat) :
    ∀ (rs : List RawResult) (i : Nat) (entry : ExtractedEntry),
      entry ∈ extractDataAux term outs urlOk now i rs →
        (∃ r ∈ rs, ∃ f, entry = .enriched (enrichResult r term f urlOk now))
        ∨ ∃ r ∈ rs, ∃ msg, entry = .degraded r msg := by
  intro rs
  induction rs with
  | nil =>
    intro i entry h
    simp [extractDataAux] at h
  | cons r rest ih =>
    intro i entry h
    simp only [extractDataAux, List.mem_cons] at h
    rcases h with h | h
    · cases ho : outs i with
      | raised msg =>
        rw [ho] at h
        exact Or.inr ⟨r, List.mem_cons_self r rest, msg, h⟩
      | ok f =>
        rw [ho] at h
        exact Or.inl ⟨r, List.mem_cons_self r rest, f, h⟩
    · rcases ih (i + 1) entry h with ⟨r', hr', f, he⟩ | ⟨r', hr', msg, he⟩
      · exact Or.inl ⟨r', List.mem_cons_of_mem r hr', f, he⟩
      · exact Or.inr ⟨r', List.mem_cons_of_mem r hr', msg, he⟩

/-- C10 amended: every entry `extract_data` produces on the success path
carries `search_term_id` equal to the processed term's id; an entry from
the per-result error-degradation path is a copy of one of the raw input
results plus an error field, and raw results carry no `search_term_id`
key at all. -/
theorem extract_data_search_term_id (rs : List RawResult) (term : SearchTerm)
    (outs : Nat → EnrichOutcome) (urlOk : String → Bool) (now : Nat) :
    ∀ entry ∈ extractData rs term outs urlOk now,
      (∀ e, entry = ExtractedEntry.enriched e → e.search_term_id = term.id)
      ∧ ∀ r msg, entry = ExtractedEntry.degraded r msg → r ∈ rs := by
  intro entry hmem
  rcases extractDataAux_mem term outs urlOk now rs 0 entry hmem with
    ⟨r, _, f, he⟩ | ⟨r, hr, msg, he⟩
  · subst he
    constructor
    · intro e he'
      cases he'
      exact enrichResult_search_term_id r term f urlOk now
    · intro r' msg h
      cases h
  · subst he
    constructor
    · intro e he'
      cases he'
    · intro r' msg' h
      cases h
      exact hr

/-- Concrete data for the C10 runs. -/
def c10term : SearchTerm := { id := some 7 }

/-- Raw result for the C10 runs. -/
def c10raw : RawResult := ⟨"https://e.com/x", "X Item", "", "q", "https://e.com"⟩

/-- An enrichment that raises, exercising the degradation handler. -/
def c10raisedOuts : Nat → EnrichOutcome := fun _ => .raised "boom"

/-- C10 is false as stated: when enriching the only result raises, the
handler appends a copy of the raw result with just an `error` key, so the
entry carries no `search_term_id` and does not trace back to the term. -/
theorem degraded_entry_lacks_search_term_id :
    (extractData [c10raw] c10term c10raisedOuts anyUrlOk 0).map searchTermIdOf = [none]
    ∧ ¬ ∀ entry ∈ extractData [c10raw] c10term c10raisedOuts anyUrlOk 0,
        searchTermIdOf entry = some c10term.id := by
  constructor
  · rfl
  · decide

/-- Witness for C10 amended: the enriched entry of a concrete successful
run carries the term's id. -/
theorem extract_data_search_term_id_witness :
    (enrichResult c10raw c10term (.ok {}) anyUrlOk 0).search_term_id = c10term.id :=
  (extract_data_search_term_id [c10raw] c10term (fun _ => .ok (.ok {})) anyUrlOk 0
    (.enriched (enrichResult c10raw c10term (.ok {}) anyUrlOk 0)) (by decide)).1
    (enrichResult c10raw c10term (.ok {}) anyUrlOk 0) rfl

/-- Field values of `_enrich_result` when the metadata fetch fails with a
transport error (`requests.RequestException`, e.g. a timeout): the local
handler in `_fetch_page_metadata` records `fetch_error` in the returned
metadata dictionary, which is merged into the entry; `metadata_error`
stays absent; the base fields pass through cleaning unchanged otherwise. -/
theorem enrichResult_transportErr (r : RawResult) (term : SearchTerm)
    (msg : String) (urlOk : String → Bool) (now : Nat)
    (hurl : r.url.isEmpty = false) :
    (enrichResult r term (.transportErr msg) urlOk now).fetch_error = some msg
    ∧ (enrichResult r term (.transportErr msg) urlOk now).metadata_error = none
    ∧ (enrichResult r term (.transportErr msg) urlOk now).url = validateUrl urlOk r.url
    ∧ (enrichResult r term (.transportErr msg) urlOk now).title = cleanText r.title
    ∧ (enrichResult r term (.transportErr msg) urlOk now).description = cleanText r.description
    ∧ (enrichResult r term (.transportErr msg) urlOk now).query = r.query
    ∧ (enrichResult r term (.transportErr msg) urlOk now).source_url = r.source_url := by
  unfold enrichResult cleanResultData fetchPageMetadata
  simp only [hurl, Bool.false_eq_true, if_false]
  exact ⟨trivial, trivial, trivial, trivial, trivial, trivial, trivial⟩

/-- C6 amended: a transport failure (such as a timeout) on a per-result
metadata fetch still yields an enriched entry for that result — placed in
the batch, which keeps its full length — with `fetch_error` set to the
failure message and `metadata_error` unset; the base RawResult fields
survive unchanged whenever they are already clean (texts fixed by
`_clean_text`, URL accepted by `_validate_url`). -/
theorem extract_data_transport_error (r : RawResult) (rest : List RawResult)
    (term : SearchTerm) (outs : Nat → EnrichOutcome) (urlOk : String → Bool)
    (now : Nat) (msg : String)
    (hout : outs 0 = .ok (.transportErr msg))
    (hurl : r.url.isEmpty = false) (hok : urlOk r.url = true)
    (ht : cleanText r.title = r.title)
    (hd : cleanText r.description = r.description) :
    (extractData (r :: rest) term outs urlOk now).head?
      = some (.enriched (enrichResult r term (.transportErr msg) urlOk now))
    ∧ (extractData (r :: rest) term outs urlOk now).length = rest.length + 1
    ∧ (enrichResult r term (.transportErr msg) urlOk now).fetch_error = some msg
    ∧ (enrichResult r term (.transportErr msg) urlOk now).metadata_error = none
    ∧ (enrichResult r term (.transportErr msg) urlOk now).url = r.url
    ∧ (enrichResult r term (.transportErr msg) urlOk now).title = r.title
    ∧ (enrichResult r term (.transportErr msg) urlOk now).description = r.description
    ∧ (enrichResult r term (.transportErr msg) urlOk now).query = r.query
    ∧ (enrichResult r term (.transportErr msg) urlOk now).source_url = r.source_url := by
  obtain ⟨h1, h2, h3, h4, h5, h6, h7⟩ :=
    enrichResult_transportErr r term msg urlOk now hurl
  refine ⟨?_, ?_, h1, h2, ?_, ?_, ?_, h6, h7⟩
  · simp only [extractData, extractDataAux, hout, List.head?_cons]
  · simp only [extractData, extractDataAux_length, List.length_cons]
  · rw [h3]
    unfold validateUrl
    simp [hurl, hok]
  · rw [h4, ht]
  · rw [h5, hd]

/-- Concrete data for the C6 runs. -/
def c6term : SearchTerm := { id := some 3 }

/-- Raw result for the C6 runs. -/
def c6raw : RawResult := ⟨"https://e.com/page", "Result Title", "Short text", "q", "https://e.com"⟩

/-- A per-result metadata fetch that times out (transport error). -/
def c6timeoutOuts : Nat → EnrichOutcome := fun _ => .ok (.transportErr "timed out")

/-- C6 is false as stated: on a concrete run whose only metadata fetch
times out, the enriched entry's `metadata_error` is absent — the failure is
recorded under `fetch_error` instead — contradicting the claim that
`metadata_error` is set. -/
theorem transport_error_leaves_metadata_error_unset :
    (extractData [c6raw] c6term c6timeoutOuts anyUrlOk 0)
      = [.enriched (enrichResult c6raw c6term (.transportErr "timed out") anyUrlOk 0)]
    ∧ (enrichResult c6raw c6term (.transportErr "timed out") anyUrlOk 0).metadata_error = none
    ∧ (enrichResult c6raw c6term (.transportErr "timed out") anyUrlOk 0).fetch_error
      = some "timed out"
    ∧ (enrichResult c6raw c6term (.transportErr "timed out") anyUrlOk 0).url = c6raw.url := by
  refine ⟨rfl, rfl, rfl, ?_⟩
  decide

/-- Witness for C6 amended at the concrete timed-out run. -/
theorem extract_data_transport_error_witness :
    (extractData [c6raw] c6term c6timeoutOuts anyUrlOk 0).length = 1
    ∧ (enrichResult c6raw c6term (.transportErr "timed out") anyUrlOk 0).fetch_error
      = some "timed out"
    ∧ (enrichResult c6raw c6term (.transportErr "timed out") anyUrlOk 0).title
      = c6raw.title :=
  ⟨(extract_data_transport_error c6raw [] c6term c6timeoutOuts anyUrlOk 0 "timed out"
      rfl rfl rfl (by decide) (by decide)).2.1,
    (extract_data_transport_error c6raw [] c6term c6timeoutOuts anyUrlOk 0 "timed out"
      rfl rfl rfl (by decide) (by decide)).2.2.1,
    (extract_data_transport_error c6raw [] c6term c6timeoutOuts anyUrlOk 0 "timed out"
      rfl rfl rfl (by decide) (by decide)).2.2.2.2.2.1⟩

/-- The `seen_urls` fold keeps a subsequence of its input list. -/
theorem dedupByUrlAux_sublist :
    ∀ (l : List RawResult) (seen : List String),
      List.Sublist (dedupByUrlAux seen l) l := by
  intro l
  induction l with
  | nil => intro seen; simp [dedupByUrlAux]
  | cons r rs ih =>
    intro seen
    unfold dedupByUrlAux
    split
    · exact List.Sublist.cons r (ih seen)
    · exact List.Sublist.cons₂ r (ih _)

/-- The URLs surviving the `seen_urls` fold avoid the seen set and are
pairwise distinct. -/
theorem dedupByUrlAux_nodup :
    ∀ (l : List RawResult) (seen : List String),
      (∀ u ∈ (dedupByUrlAux seen l).map RawResult.url, u ∉ seen)
      ∧ ((dedupByUrlAux seen l).map RawResult.url).Nodup := by
  intro l
  induction l with
  | nil => intro seen; simp [dedupByUrlAux]
  | cons r rs ih =>
    intro seen
    unfold dedupByUrlAux
    split
    · exact ih seen
    · rename_i hnot
      obtain ⟨ihavoid, ihnodup⟩ := ih (r.url :: seen)
      constructor
      · intro u hu
        rw [List.map_cons, List.mem_cons] at hu
        rcases hu with h | h
        · subst h; exact hnot
        · intro hseen
          exact ihavoid u h (List.mem_cons_of_mem _ hseen)
      · refine List.nodup_cons.mpr ⟨?_, ihnodup⟩
        intro hmem
        exact ihavoid r.url hmem (List.mem_cons_self _ _)

/-- For a URL outside the seen set, the first matching entry after the
`seen_urls` fold is the first matching entry of the input list. -/
theorem dedupByUrlAux_find? :
    ∀ (l : List RawResult) (seen : List String) (u : String), u ∉ seen →
      (dedupByUrlAux seen l).find? (fun r => r.url == u)
        = l.find? (fun r => r.url == u) := by
  intro l
  induction l with
  | nil => intro seen u _; rfl
  | cons r rs ih =>
    intro seen u hu
    unfold dedupByUrlAux
    split
    · rename_i hin
      have hne : (r.url == u) = false := by
        refine beq_eq_false_iff_ne.mpr ?_
        intro h
        exact hu (h ▸ hin)
      have hstep : List.find? (fun x => x.url == u) (r :: rs)
          = List.find? (fun x => x.url == u) rs := by
        simp only [List.find?, hne]
      rw [hstep]
      exact ih seen u hu
    · rename_i hnot
      cases hru : (r.url == u) with
      | true => simp only [List.find?, hru]
      | false =>
        simp only [List.find?, hru]
        refine ih (r.url :: seen) u ?_
        intro h
        rcases List.mem_cons.mp h with h' | h'
        · rw [h'] at hru
          simp at hru
        · exact hu h'

/-- C7 amended: the Form strategy's page-level extraction removes duplicate
URLs keeping the first occurrence — its output URLs are pairwise distinct,
the output is an order-preserving subsequence of the validity-filtered
candidate outcomes, and for every URL the first output entry with that URL
is the first filtered candidate with it; the QueryParam strategy's
page-level extraction performs no deduplication (see its counterexample). -/
theorem form_extraction_dedup_keeps_first (cands : List (Option RawResult)) :
    ((formExtractResultsFromPage cands).map RawResult.url).Nodup
    ∧ List.Sublist (formExtractResultsFromPage cands)
        (cands.filterMap fun o => match o with
          | some r => if isValidResult r then some r else none
          | none => none)
    ∧ ∀ u : String,
        (formExtractResultsFromPage cands).find? (fun r => r.url == u)
          = (cands.filterMap fun o => match o with
              | some r => if isValidResult r then some r else none
              | none => none).find? (fun r => r.url == u) :=
  ⟨(dedupByUrlAux_nodup _ []).2, dedupByUrlAux_sublist _ [],
    fun u => dedupByUrlAux_find? _ [] u (by simp)⟩

/-- A duplicated candidate outcome for the C7 counterexample. -/
def c7dup : RawResult := ⟨"https://e.com/dup", "Duplicate Title", "", "q", "https://e.com"⟩

/-- C7 is false as stated: the QueryParam strategy's
`_extract_results_from_page` has no `seen_urls` stage, so two candidate
elements resolving to the same absolute URL both appear in its output —
the URL occurs twice.  (The Form strategy's copy does deduplicate.) -/
theorem queryparam_extraction_keeps_duplicates :
    queryParamExtractResultsFromPage [some c7dup, some c7dup] = [c7dup, c7dup]
    ∧ ((queryParamExtractResultsFromPage [some c7dup, some c7dup]).map
        RawResult.url).count "https://e.com/dup" = 2
    ∧ formExtractResultsFromPage [some c7dup, some c7dup] = [c7dup] := by
  refine ⟨rfl, ?_, ?_⟩ <;> decide

/-- Concrete `urljoin` collaborator for root-relative paths against a bare
origin: plain concatenation. -/
def c4ujoin : String → String → String := fun b p => b ++ p

/-- Base URL for the C4 runs. -/
def c4base : String := "https://site.test"

/-- HEAD transport for the C4 runs: only `/sitemap.xml` answers 200. -/
def c4head : String → Option Nat := fun u =>
  if u = "https://site.test/sitemap.xml" then some 200 else some 404

/-- A robots.txt body carrying one `Sitemap:` line. -/
def c4rf : RobotsFetch :=
  ⟨200, "User-agent: *\nSitemap: https://site.test/extra.xml"⟩

/-- C4 is false as stated: with `/sitemap.xml` probing 200 and robots.txt
referencing one sitemap, `analysis.update(self._analyze_robots_txt(url))`
overwrites the probe-built list — the final `sitemap_urls` holds only the
robots-derived URL and has lost the 200-probed path. -/
theorem robots_sitemaps_replace_probe_list :
    analyzeSitemaps c4ujoin c4base c4head = ["https://site.test/sitemap.xml"]
    ∧ robotsSitemapUrls c4rf.text = ["https://site.test/extra.xml"]
    ∧ analyzeWebsiteSitemapUrls c4ujoin c4base c4head (some c4rf) true
      = ["https://site.test/extra.xml"]
    ∧ "https://site.test/sitemap.xml"
      ∉ analyzeWebsiteSitemapUrls c4ujoin c4base c4head (some c4rf) true := by
  refine ⟨?_, ?_, ?_, ?_⟩ <;> decide

/-- C4 amended: after `analyze_website`, when robots.txt answered 200 with
at least one `Sitemap:` line, the final `sitemap_urls` equals exactly the
robots-derived URL list (the dictionary update replaces the well-known-path
probe list); the probe list survives exactly when the robots dictionary
carries no `sitemap_urls` key (fetch failed, non-200, or no sitemap
lines). -/
theorem analyze_website_sitemap_composition (ujoin : String → String → String)
    (base : String) (headStatus : String → Option Nat) :
    (∀ rf : RobotsFetch, rf.status = 200 → robotsSitemapUrls rf.text ≠ [] →
      analyzeWebsiteSitemapUrls ujoin base headStatus (some rf) true
        = robotsSitemapUrls rf.text)
    ∧ ∀ robots : Option RobotsFetch, robotsInfoSitemapUrls robots = none →
      analyzeWebsiteSitemapUrls ujoin base headStatus robots true
        = analyzeSitemaps ujoin base headStatus := by
  constructor
  · intro rf h200 hne
    have hFalse : (robotsSitemapUrls rf.text).isEmpty = false := by
      cases hl : robotsSitemapUrls rf.text
      · exact absurd hl hne
      · rfl
    unfold analyzeWebsiteSitemapUrls robotsInfoSitemapUrls
    simp [h200, hFalse]
  · intro robots hnone
    unfold analyzeWebsiteSitemapUrls
    rw [hnone]
    rfl

/-- Witness for C4 amended at the concrete probe/robots outcomes. -/
theorem analyze_website_sitemap_composition_witness :
    analyzeWebsiteSitemapUrls c4ujoin c4base c4head (some c4rf) true
      = robotsSitemapUrls c4rf.text
    ∧ analyzeWebsiteSitemapUrls c4ujoin c4base c4head none true
      = analyzeSitemaps c4ujoin c4base c4head :=
  ⟨(analyze_website_sitemap_composition c4ujoin c4base c4head).1 c4rf rfl (by decide),
    (analyze_website_sitemap_composition c4ujoin c4base c4head).2 none rfl⟩

/-- Membership after one `append-if-absent` step. -/
theorem mem_addIfAbsent (acc : List SForm) (f x : SForm) :
    x ∈ addIfAbsent acc f ↔ x ∈ acc ∨ x = f := by
  unfold addIfAbsent
  split
  · rename_i hin
    constructor
    · exact Or.inl
    · rintro (h | rfl)
      · exact h
      · exact hin
  · simp [List.mem_append]

/-- Membership after folding `append-if-absent` over a list. -/
theorem mem_foldl_addIfAbsent :
    ∀ (l acc : List SForm) (x : SForm),
      x ∈ l.foldl addIfAbsent acc ↔ x ∈ acc ∨ x ∈ l := by
  intro l
  induction l with
  | nil => intro acc x; simp
  | cons f fs ih =>
    intro acc x
    rw [List.foldl_cons, ih, mem_addIfAbsent, List.mem_cons]
    tauto

/-- C5 amended: `_analyze_search_forms` records a form (membership in
`search_forms`, hence `has_search_form` and the resolved endpoint) if and
only if the form's action, id, or class matches `search|query|find`
case-insensitively, OR its `method` attribute is exactly `'get'`, OR it
contains an input that is (a) of type text/search with a name matching
`search|query|q|find|term|keyword`, or (b) has a placeholder matching
`search|query|find|enter`, or (c) has an id matching `search|query|find`
(all case-insensitive substring matches). -/
theorem search_form_recording_iff (page : List SForm)
    (ujoin : String → String → String) (base : String) :
    (∀ f : SForm, f ∈ searchForms page ↔ f ∈ page ∧ formQualifies f = true)
    ∧ (hasSearchForm page = true ↔ ∃ f ∈ page, formQualifies f = true)
    ∧ ∀ f ∈ page, formQualifies f = true →
        resolveFormEndpoint ujoin base f ∈ searchEndpoints ujoin base page := by
  have hmem : ∀ f : SForm, f ∈ searchForms page ↔ f ∈ page ∧ formQualifies f = true := by
    intro f
    unfold searchForms
    rw [mem_foldl_addIfAbsent]
    unfold patternMatchedForms inputDerivedForms formQualifies inputMatchesSearch
    simp only [List.mem_append, List.mem_filter, List.any_eq_true, Bool.or_eq_true]
    constructor
    · rintro ((((⟨hp, h⟩ | ⟨hp, h⟩) | ⟨hp, h⟩) | ⟨hp, h⟩) |
        ((⟨hp, i, hi, h⟩ | ⟨hp, i, hi, h⟩) | ⟨hp, i, hi, h⟩))
      · exact ⟨hp, Or.inl (Or.inl (Or.inl (Or.inl h)))⟩
      · exact ⟨hp, Or.inl (Or.inl (Or.inl (Or.inr h)))⟩
      · exact ⟨hp, Or.inl (Or.inl (Or.inr h))⟩
      · exact ⟨hp, Or.inl (Or.inr h)⟩
      · exact ⟨hp, Or.inr ⟨i, hi, Or.inl (Or.inl h)⟩⟩
      · exact ⟨hp, Or.inr ⟨i, hi, Or.inl (Or.inr h)⟩⟩
      · exact ⟨hp, Or.inr ⟨i, hi, Or.inr h⟩⟩
    · rintro ⟨hp, (((h | h) | h) | h) | ⟨i, hi, (h | h) | h⟩⟩
      · exact Or.inl (Or.inl (Or.inl (Or.inl ⟨hp, h⟩)))
      · exact Or.inl (Or.inl (Or.inl (Or.inr ⟨hp, h⟩)))
      · exact Or.inl (Or.inl (Or.inr ⟨hp, h⟩))
      · exact Or.inl (Or.inr ⟨hp, h⟩)
      · exact Or.inr (Or.inl (Or.inl ⟨hp, i, hi, h⟩))
      · exact Or.inr (Or.inl (Or.inr ⟨hp, i, hi, h⟩))
      · exact Or.inr (Or.inr ⟨hp, i, hi, h⟩)
  refine ⟨hmem, ?_, ?_⟩
  · constructor
    · intro h
      cases hsf : searchForms page with
      | nil =>
        rw [hasSearchForm, hsf] at h
        simp at h
      | cons f fs =>
        have hf : f ∈ searchForms page := hsf ▸ List.mem_cons_self f fs
        rcases (hmem f).mp hf with ⟨hp, hq⟩
        exact ⟨f, hp, hq⟩
    · rintro ⟨f, hp, hq⟩
      have hf : f ∈ searchForms page := (hmem f).mpr ⟨hp, hq⟩
      unfold hasSearchForm
      cases hsf : searchForms page with
      | nil =>
        rw [hsf] at hf
        simp at hf
      | cons g gs => rfl
  · intro f hf hq
    exact List.mem_map_of_mem _ ((hmem f).mpr ⟨hf, hq⟩)

/-- A form whose only notable attribute is `method="get"`. -/
def c5getForm : SForm := { methodAttr := some "get" }

/-- A form whose action matches the search regex, for the C5 witness. -/
def c5searchForm : SForm := { actionAttr := some "/search.php" }

/-- C5 is false as stated: the probe's pattern list also contains
`{'method': 'get'}`, so a form with `method="get"` and no search-related
action/id/class and no inputs at all is still recorded (sets
`has_search_form`), although it lies outside both shapes the claim
allows. -/
theorem method_get_form_recorded :
    hasSearchForm [c5getForm] = true
    ∧ searchForms [c5getForm] = [c5getForm]
    ∧ claimFormQualifies c5getForm = false := by
  refine ⟨?_, ?_, ?_⟩ <;> decide

/-- Witness for C5 amended: a concrete qualifying form is recorded with its
resolved endpoint. -/
theorem search_form_recording_iff_witness :
    c5searchForm ∈ searchForms [c5getForm, c5searchForm]
    ∧ resolveFormEndpoint c4ujoin c4base c5searchForm
      ∈ searchEndpoints c4ujoin c4base [c5getForm, c5searchForm] :=
  ⟨((search_form_recording_iff [c5getForm, c5searchForm] c4ujoin c4base).1
      c5searchForm).mpr ⟨by decide, by decide⟩,
    (search_form_recording_iff [c5getForm, c5searchForm] c4ujoin c4base).2.2
      c5searchForm (by decide) (by decide)⟩

end Scraper
